import Mathlib

/-!
Shallow embedding of the sun2flops web client core: the sweep-matrix pivot
(from the SweepTab component) and the run-lifecycle orchestrator (from the
useSimulation hook).  JavaScript numbers are modelled as rationals; optional
values as Option; asynchronous call outcomes are passed in explicitly as
arguments of the state-transition functions.
-/

namespace Sun2Flops

/-! ## Sweep pivot (SweepTab) -/

/-- Row of a sweep artifact.  In the source a row is a record of numeric
fields; the two independent-variable fields pv_kw and batt_kwh are always
read, the metric fields may be absent (read with a 0 default). -/
structure SweepRow where
  pv_kw : ℚ
  batt_kwh : ℚ
  utilization : Option ℚ := none
  total_flops : Option ℚ := none
  hours_unserved : Option ℚ := none
  curtailment_fraction : Option ℚ := none
deriving DecidableEq, Repr

/-- Sweep artifact: column names plus row objects (types/index.ts SweepData). -/
structure SweepData where
  columns : List String
  data : List SweepRow
deriving DecidableEq, Repr

/-- Helper for the Set-based deduplication: keep each value the first time
it is met, tracking the values already seen. -/
def dedupAux : List ℚ → List ℚ → List ℚ
  | [], _ => []
  | x :: xs, seen =>
    if x ∈ seen then dedupAux xs seen else x :: dedupAux xs (x :: seen)

/-- JavaScript Set-based deduplication, keeping the first occurrence of each
value, as in the source expression spread of new Set of the mapped list. -/
def jsSetDedup (l : List ℚ) : List ℚ := dedupAux l []

/-- Distinct PV sizes, sorted ascending numerically
(the pvSizes value in SweepTab). -/
def pvSizes (rows : List SweepRow) : List ℚ :=
  List.insertionSort (· ≤ ·) (jsSetDedup (rows.map SweepRow.pv_kw))

/-- Distinct battery sizes, sorted ascending numerically
(the battSizes value in SweepTab). -/
def battSizes (rows : List SweepRow) : List ℚ :=
  List.insertionSort (· ≤ ·) (jsSetDedup (rows.map SweepRow.batt_kwh))

/-- Predicate used by the find call in the pivot loop. -/
def rowMatches (pv batt : ℚ) (r : SweepRow) : Bool :=
  decide (r.pv_kw = pv) && decide (r.batt_kwh = batt)

/-- First row whose coordinates match, as in data.data.find in the source. -/
def findRow (rows : List SweepRow) (pv batt : ℚ) : Option SweepRow :=
  rows.find? (rowMatches pv batt)

/-- The pivot: one output row per distinct battery size (ascending), one
column per distinct PV size (ascending); a cell holds the value of the first
matching row, or 0 when no row matches.  The pushed value val already folds
in the 0 default for an absent metric field, as in the source. -/
def pivotMatrix (rows : List SweepRow) (val : SweepRow → ℚ) : List (List ℚ) :=
  (battSizes rows).map (fun batt =>
    (pvSizes rows).map (fun pv =>
      match findRow rows pv batt with
      | some r => val r
      | none => 0))

/-- Value pushed for the utilization heatmap: (row.utilization or 0) * 100. -/
def utilizationValue (r : SweepRow) : ℚ := r.utilization.getD 0 * 100

/-- Value pushed for the FLOPs matrix: row.total_flops or 0. -/
def flopsValue (r : SweepRow) : ℚ := r.total_flops.getD 0

/-- Utilization heatmap matrix of SweepTab. -/
def utilizationMatrix (d : SweepData) : List (List ℚ) :=
  pivotMatrix d.data utilizationValue

/-- Total-FLOPs matrix of SweepTab (before the per-display PFLOPs scaling). -/
def flopsMatrix (d : SweepData) : List (List ℚ) :=
  pivotMatrix d.data flopsValue

/-- Display scaling of the FLOPs heatmap: every cell divided by 1e15. -/
def flopsHeatmapZ (d : SweepData) : List (List ℚ) :=
  (flopsMatrix d).map (fun row => row.map (fun v => v / 10 ^ 15))

/-! ## Run orchestrator (useSimulation) -/

/-- The four status kinds of types/index.ts RunStatus. -/
inductive StatusKind where
  | queued
  | running
  | done
  | error
deriving DecidableEq, Repr

/-- RunStatus of types/index.ts: status kind, numeric progress, message and
an optional metrics mapping (only meaningful when done). -/
structure RunStatus where
  status : StatusKind
  progress : ℚ
  message : String
  metrics : Option (List (String × ℚ)) := none
deriving DecidableEq, Repr

/-- TimeseriesData of types/index.ts. -/
structure TimeseriesData where
  index : List String
  columns : List String
  data : List (List ℚ)
deriving DecidableEq, Repr

/-- Orchestrator state: the five useState cells of useSimulation. -/
structure SimState where
  runId : Option String
  status : Option RunStatus
  timeseries : Option TimeseriesData
  sweep : Option SweepData
  error : Option String
deriving DecidableEq, Repr

/-- State before any submission: every cell starts at null. -/
def initialState : SimState :=
  { runId := none, status := none, timeseries := none, sweep := none,
    error := none }

/-- Derived boolean: status exists and its status field is queued or
running, as in the optional-chaining comparison of the source. -/
def isRunning (s : SimState) : Bool :=
  match s.status with
  | some st => st.status == StatusKind.queued || st.status == StatusKind.running
  | none => false

/-- Outcome of the external create-run call. -/
inductive CreateRunResult where
  | success (run_id : String)
  | failure (message : String)
deriving DecidableEq, Repr

/-- Outcome of the sweep fetch: found, not found (404, tolerated for single
runs), or any other failure. -/
inductive SweepFetchResult where
  | found (value : SweepData)
  | notFound
  | failed (message : String)
deriving DecidableEq, Repr

/-- Effect of the create-run mutation resolving: onSuccess stores the new
run id, resets the status to queued with progress 0, and clears the error;
onError records the message.  mutateAsync additionally rejects on failure,
modelled by the Except component crossing back to the caller. -/
def applyCreateRun (s : SimState) (res : CreateRunResult) :
    SimState × Except String Unit :=
  match res with
  | .success rid =>
      ({ s with runId := some rid,
                status := some { status := .queued, progress := 0,
                                 message := "Run queued" },
                error := none }, .ok ())
  | .failure msg => ({ s with error := some msg }, .error msg)

/-- The clearing both submit actions perform first, before the create-run
call is issued: the cached timeseries and sweep are set to null. -/
def submitClear (s : SimState) : SimState :=
  { s with timeseries := none, sweep := none }

/-- The enabled condition of the status poll query: a run id exists and the
derived isRunning boolean holds. -/
def pollEnabled (s : SimState) : Bool :=
  s.runId.isSome && isRunning s

/-- The fixed poll cadence in milliseconds (refetchInterval). -/
def pollIntervalMs : ℕ := 1000

/-- Effect of one poll tick.  The query only runs while enabled; a
successful response replaces the stored status wholesale through the
setStatus effect; a transport failure leaves the state unchanged. -/
def applyPoll (s : SimState) (res : Except String RunStatus) : SimState :=
  if pollEnabled s then
    match res with
    | .ok st => { s with status := some st }
    | .error _ => s
  else s

/-- The enabled condition shared by the two artifact fetch queries: a run id
exists and the stored status is done. -/
def artifactFetchEnabled (s : SimState) : Bool :=
  s.runId.isSome &&
    match s.status with
    | some st => st.status == StatusKind.done
    | none => false

/-- Effect of the timeseries fetch: when enabled and successful the data is
cached through setTimeseries; a failure is not handled anywhere, so the
state is unchanged. -/
def applyFetchTimeseries (s : SimState) (res : Except String TimeseriesData) :
    SimState :=
  if artifactFetchEnabled s then
    match res with
    | .ok d => { s with timeseries := some d }
    | .error _ => s
  else s

/-- Effect of the sweep fetch: when enabled and found the data is cached
through setSweep; the query destructures only the data field, so neither a
not-found result nor any other failure changes any state cell. -/
def applyFetchSweep (s : SimState) (res : SweepFetchResult) : SimState :=
  if artifactFetchEnabled s then
    match res with
    | .found d => { s with sweep := some d }
    | .notFound => s
    | .failed _ => s
  else s

/-- The reset action: all five cells back to null. -/
def reset (s : SimState) : SimState :=
  { s with runId := none, status := none, timeseries := none, sweep := none,
           error := none }

/-! Configuration payload of a submission (types/index.ts).  The payload is
forwarded to the external create-run call and never read by the
orchestrator itself. -/

/-- SiteConfig of types/index.ts. -/
structure SiteConfig where
  name : String
  latitude : ℚ
  longitude : ℚ
  timezone : String
  altitude_m : Option ℚ
deriving DecidableEq, Repr

/-- WeatherConfig of types/index.ts (source is always the nsrdb literal). -/
structure WeatherConfig where
  years : List ℤ
  interval_min : ℚ
  leap_day : Bool
  cache_dir : String
deriving DecidableEq, Repr

/-- PVConfig of types/index.ts (dc_model: true stands for pvwatts). -/
structure PVConfig where
  surface_tilt_deg : ℚ
  surface_azimuth_deg : ℚ
  dc_nameplate_kw : ℚ
  dc_model_pvwatts : Bool
  gamma_pdc_per_c : ℚ
  mppt_eff : ℚ
  dc_wiring_eff : ℚ
deriving DecidableEq, Repr

/-- BatteryConfig of types/index.ts. -/
structure BatteryConfig where
  energy_capacity_kwh : ℚ
  soc_init : ℚ
  soc_min : ℚ
  soc_max : ℚ
  ocv_soc : List ℚ
  ocv_v : List ℚ
  r_internal_ohm : ℚ
  i_charge_max_a : ℚ
  i_discharge_max_a : ℚ
  charge_eff : ℚ
  discharge_eff : ℚ
deriving DecidableEq, Repr

/-- GPUConfig of types/index.ts. -/
structure GPUConfig where
  n_gpus : ℕ
  p_idle_w : ℚ
  p_max_w : ℚ
  flops_peak_per_gpu : ℚ
  power_exponent : ℚ
deriving DecidableEq, Repr

/-- GovernorConfig of types/index.ts. -/
structure GovernorConfig where
  enabled : Bool
  reserve_soc : ℚ
  safety_factor : ℚ
  ramp_limit_w_per_step : ℚ
deriving DecidableEq, Repr

/-- SimConfig of types/index.ts (coupling_mode is always mppt_bus). -/
structure SimConfig where
  dt_min : ℚ
deriving DecidableEq, Repr

/-- FullConfig of types/index.ts. -/
structure FullConfig where
  site : SiteConfig
  weather : WeatherConfig
  pv : PVConfig
  battery : BatteryConfig
  gpu : GPUConfig
  governor : GovernorConfig
  sim : SimConfig
deriving DecidableEq, Repr

/-- RunOptions of types/index.ts. -/
structure RunOptions where
  single_year : Option ℤ
  use_all_years : Bool
  pv_kw_list : List ℚ
  batt_kwh_list : List ℚ
deriving DecidableEq, Repr

/-- Run mode of a submission request. -/
inductive RunMode where
  | single
  | sweep
deriving DecidableEq, Repr

/-- The submit action shared by runSingle and runSweep: first both artifact
caches are cleared, then the create-run outcome is applied; the Except
component is the promise the caller awaits, which rejects on failure
because the mutation is awaited through mutateAsync without a catch.  The
mode and payload only shape the request, not the state transition. -/
def submitRun (mode : RunMode) (s : SimState) (config : FullConfig)
    (options : RunOptions) (res : CreateRunResult) :
    SimState × Except String Unit :=
  match mode, config, options with
  | _, _, _ => applyCreateRun (submitClear s) res

/-- The runSingle action of the hook. -/
def runSingle (s : SimState) (config : FullConfig) (options : RunOptions)
    (res : CreateRunResult) : SimState × Except String Unit :=
  submitRun RunMode.single s config options res

/-- The runSweep action of the hook. -/
def runSweep (s : SimState) (config : FullConfig) (options : RunOptions)
    (res : CreateRunResult) : SimState × Except String Unit :=
  submitRun RunMode.sweep s config options res

/-- One observable event of the orchestrator: a poll tick, an artifact
fetch resolution, a reset, or a submission with its create-run outcome. -/
inductive Event where
  | poll (res : Except String RunStatus)
  | fetchTimeseries (res : Except String TimeseriesData)
  | fetchSweep (res : SweepFetchResult)
  | resetEvent
  | submit (mode : RunMode) (config : FullConfig) (options : RunOptions)
      (res : CreateRunResult)
deriving Repr

/-- State transition of one event. -/
def step (s : SimState) : Event → SimState
  | .poll res => applyPoll s res
  | .fetchTimeseries res => applyFetchTimeseries s res
  | .fetchSweep res => applyFetchSweep s res
  | .resetEvent => reset s
  | .submit mode config options res => (submitRun mode s config options res).1

/-- Events that are not a new submission. -/
def Event.isSubmit : Event → Bool
  | .submit _ _ _ _ => true
  | _ => false

/-- Folding a list of successful poll responses over a state. -/
def pollTrace (s : SimState) (sts : List RunStatus) : SimState :=
  sts.foldl (fun t st => applyPoll t (.ok st)) s

/-! ## Concrete example values used by witnesses and counterexamples -/

/-- Example row: pv one, batt two, metric ten. -/
def row12 : SweepRow := { pv_kw := 1, batt_kwh := 2, total_flops := some 10 }

/-- Example row: pv two, batt two, metric twenty. -/
def row22 : SweepRow := { pv_kw := 2, batt_kwh := 2, total_flops := some 20 }

/-- Example row: pv one, batt four, metric thirty. -/
def row14 : SweepRow := { pv_kw := 1, batt_kwh := 4, total_flops := some 30 }

/-- Example row: pv two, batt four, metric forty. -/
def row24 : SweepRow := { pv_kw := 2, batt_kwh := 4, total_flops := some 40 }

/-- The example row set of the specification: three sparse sweep rows. -/
def rows3 : List SweepRow := [row12, row22, row14]

/-- A fully dense uniformly gridded row set over pv in one-two and batt in
two-four. -/
def rows4 : List SweepRow := [row12, row22, row14, row24]

/-- The status stored by a successful submission. -/
def stQueued : RunStatus :=
  { status := .queued, progress := 0, message := "Run queued" }

/-- An intermediate poll response. -/
def stRunning : RunStatus :=
  { status := .running, progress := 50, message := "halfway" }

/-- A terminal successful poll response. -/
def stDone : RunStatus :=
  { status := .done, progress := 100, message := "ok" }

/-- State right after a successful submission. -/
def sAfterSubmit : SimState :=
  { runId := some "r1", status := some stQueued, timeseries := none,
    sweep := none, error := none }

/-- State of a finished run with nothing cached yet. -/
def sDone : SimState :=
  { runId := some "r1", status := some stDone, timeseries := none,
    sweep := none, error := none }

/-- The defaultConfig value of types/index.ts. -/
def defaultConfig : FullConfig :=
  { site := { name := "Default Site", latitude := 319686/10000,
              longitude := -999018/10000, timezone := "America/Chicago",
              altitude_m := none },
    weather := { years := (List.range 20).map (fun i => 2003 + (i : ℤ)),
                 interval_min := 30, leap_day := false,
                 cache_dir := "./cache" },
    pv := { surface_tilt_deg := 20, surface_azimuth_deg := 180,
            dc_nameplate_kw := 1, dc_model_pvwatts := true,
            gamma_pdc_per_c := -3/1000, mppt_eff := 99/100,
            dc_wiring_eff := 99/100 },
    battery := { energy_capacity_kwh := 10, soc_init := 1/2,
                 soc_min := 5/100, soc_max := 95/100,
                 ocv_soc := [0, 1/5, 1/2, 4/5, 1],
                 ocv_v := [3, 34/10, 365/100, 39/10, 41/10],
                 r_internal_ohm := 2/100, i_charge_max_a := 200,
                 i_discharge_max_a := 200, charge_eff := 97/100,
                 discharge_eff := 97/100 },
    gpu := { n_gpus := 1, p_idle_w := 80, p_max_w := 700,
             flops_peak_per_gpu := 10 ^ 15, power_exponent := 3 },
    governor := { enabled := true, reserve_soc := 7/100,
                  safety_factor := 95/100, ramp_limit_w_per_step := 200 },
    sim := { dt_min := 30 } }

/-- The defaultRunOptions value of types/index.ts. -/
def defaultRunOptions : RunOptions :=
  { single_year := some 2021, use_all_years := false,
    pv_kw_list := [0, 1/2, 1, 2, 3, 4, 5],
    batt_kwh_list := [0, 2, 5, 10, 20] }

/-! ## Helper lemmas about the pivot -/

theorem dedupAux_mem : ∀ (l seen : List ℚ) (a : ℚ),
    a ∈ dedupAux l seen ↔ a ∈ l ∧ a ∉ seen := by
  intro l
  induction l with
  | nil => simp [dedupAux]
  | cons x xs ih =>
    intro seen a
    rw [dedupAux]
    by_cases hx : x ∈ seen
    · rw [if_pos hx, ih, List.mem_cons]
      constructor
      · rintro ⟨h1, h2⟩
        exact ⟨Or.inr h1, h2⟩
      · rintro ⟨h1 | h1, h2⟩
        · exact absurd hx (h1 ▸ h2)
        · exact ⟨h1, h2⟩
    · rw [if_neg hx]
      simp only [List.mem_cons, ih, List.mem_cons]
      constructor
      · rintro (rfl | ⟨h1, h2⟩)
        · exact ⟨Or.inl rfl, hx⟩
        · exact ⟨Or.inr h1, fun hs => h2 (Or.inr hs)⟩
      · rintro ⟨rfl | h1, h2⟩
        · exact Or.inl rfl
        · by_cases hax : a = x
          · exact Or.inl hax
          · exact Or.inr ⟨h1, fun hs => hs.elim hax h2⟩

theorem dedupAux_nodup : ∀ (l seen : List ℚ), (dedupAux l seen).Nodup := by
  intro l
  induction l with
  | nil => simp [dedupAux]
  | cons x xs ih =>
    intro seen
    rw [dedupAux]
    by_cases hx : x ∈ seen
    · rw [if_pos hx]
      exact ih seen
    · rw [if_neg hx]
      refine List.nodup_cons.mpr ⟨?_, ih (x :: seen)⟩
      intro hmem
      exact ((dedupAux_mem xs (x :: seen) x).mp hmem).2 (List.mem_cons_self x seen)

theorem jsSetDedup_mem (l : List ℚ) (a : ℚ) : a ∈ jsSetDedup l ↔ a ∈ l := by
  unfold jsSetDedup
  rw [dedupAux_mem]
  simp

theorem jsSetDedup_nodup (l : List ℚ) : (jsSetDedup l).Nodup :=
  dedupAux_nodup l []

theorem sorted_lt_of_le_nodup {l : List ℚ} (hs : l.Sorted (· ≤ ·))
    (hn : l.Nodup) : l.Sorted (· < ·) :=
  (hs.and hn).imp (fun h => lt_of_le_of_ne h.1 h.2)

theorem pvSizes_sorted (rows : List SweepRow) : (pvSizes rows).Sorted (· < ·) :=
  sorted_lt_of_le_nodup (List.sorted_insertionSort _ _)
    (((List.perm_insertionSort _ _).nodup_iff).mpr (jsSetDedup_nodup _))

theorem battSizes_sorted (rows : List SweepRow) :
    (battSizes rows).Sorted (· < ·) :=
  sorted_lt_of_le_nodup (List.sorted_insertionSort _ _)
    (((List.perm_insertionSort _ _).nodup_iff).mpr (jsSetDedup_nodup _))

theorem pvSizes_mem (rows : List SweepRow) (v : ℚ) :
    v ∈ pvSizes rows ↔ v ∈ rows.map SweepRow.pv_kw := by
  unfold pvSizes
  rw [(List.perm_insertionSort _ _).mem_iff, jsSetDedup_mem]

theorem battSizes_mem (rows : List SweepRow) (v : ℚ) :
    v ∈ battSizes rows ↔ v ∈ rows.map SweepRow.batt_kwh := by
  unfold battSizes
  rw [(List.perm_insertionSort _ _).mem_iff, jsSetDedup_mem]

theorem pivotMatrix_length (rows : List SweepRow) (val : SweepRow → ℚ) :
    (pivotMatrix rows val).length = (battSizes rows).length := by
  simp [pivotMatrix]

theorem pivotMatrix_row_length (rows : List SweepRow) (val : SweepRow → ℚ) :
    ∀ row ∈ pivotMatrix rows val, row.length = (pvSizes rows).length := by
  intro row hrow
  simp only [pivotMatrix, List.mem_map] at hrow
  obtain ⟨b, _, rfl⟩ := hrow
  simp

theorem getBang_map {α β : Type} [Inhabited β] (f : α → β) (l : List α)
    (j : ℕ) (h : j < l.length) : (l.map f)[j]! = f l[j] := by
  have h2 : j < (l.map f).length := by simpa using h
  rw [getElem!_pos (l.map f) j h2, List.getElem_map]

theorem pivotMatrix_cell (rows : List SweepRow) (val : SweepRow → ℚ)
    (i j : ℕ) (hi : i < (battSizes rows).length)
    (hj : j < (pvSizes rows).length) :
    ((pivotMatrix rows val)[i]!)[j]! =
      match findRow rows ((pvSizes rows)[j]!) ((battSizes rows)[i]!) with
      | some r => val r
      | none => 0 := by
  rw [getElem!_pos (battSizes rows) i hi, getElem!_pos (pvSizes rows) j hj]
  unfold pivotMatrix
  rw [getBang_map _ _ i hi, getBang_map _ _ j hj]

/-! ## Helper lemmas about the orchestrator -/

theorem isRunning_iff (s : SimState) :
    isRunning s = true ↔ ∃ st, s.status = some st ∧
      (st.status = StatusKind.queued ∨ st.status = StatusKind.running) := by
  unfold isRunning
  cases h : s.status with
  | none => simp
  | some st =>
    simp only [Bool.or_eq_true, beq_iff_eq, Option.some.injEq]
    constructor
    · intro hk
      exact ⟨st, rfl, hk⟩
    · rintro ⟨st2, rfl, hk⟩
      exact hk

theorem applyPoll_of_disabled (s : SimState) (res : Except String RunStatus)
    (h : pollEnabled s = false) : applyPoll s res = s := by
  unfold applyPoll
  simp [h]

theorem applyPoll_of_enabled (s : SimState) (st : RunStatus)
    (h : pollEnabled s = true) :
    applyPoll s (.ok st) = { s with status := some st } := by
  unfold applyPoll
  simp [h]

theorem applyPoll_runId (s : SimState) (res : Except String RunStatus) :
    (applyPoll s res).runId = s.runId := by
  unfold applyPoll
  by_cases h : pollEnabled s = true
  · simp only [h, if_true]
    cases res <;> rfl
  · simp only [Bool.not_eq_true] at h
    simp [h]

theorem applyFetchTimeseries_status (s : SimState)
    (res : Except String TimeseriesData) :
    (applyFetchTimeseries s res).status = s.status := by
  unfold applyFetchTimeseries
  by_cases h : artifactFetchEnabled s = true
  · simp only [h, if_true]
    cases res <;> rfl
  · simp only [Bool.not_eq_true] at h
    simp [h]

theorem applyFetchSweep_status (s : SimState) (res : SweepFetchResult) :
    (applyFetchSweep s res).status = s.status := by
  unfold applyFetchSweep
  by_cases h : artifactFetchEnabled s = true
  · simp only [h, if_true]
    cases res <;> rfl
  · simp only [Bool.not_eq_true] at h
    simp [h]

theorem isRunning_eq_of_status_eq {s t : SimState} (h : s.status = t.status) :
    isRunning s = isRunning t := by
  unfold isRunning
  rw [h]

theorem step_nonsubmit_not_running (s : SimState) (e : Event)
    (he : e.isSubmit = false) (h : isRunning s = false) :
    isRunning (step s e) = false := by
  cases e with
  | poll res =>
    have hdis : pollEnabled s = false := by
      simp [pollEnabled, h]
    simp [step, applyPoll_of_disabled s res hdis, h]
  | fetchTimeseries res =>
    rw [step, isRunning_eq_of_status_eq (applyFetchTimeseries_status s res), h]
  | fetchSweep res =>
    rw [step, isRunning_eq_of_status_eq (applyFetchSweep_status s res), h]
  | resetEvent => rfl
  | submit mode config options res => simp [Event.isSubmit] at he

theorem pollTrace_cons (s : SimState) (st : RunStatus)
    (sts : List RunStatus) :
    pollTrace s (st :: sts) = pollTrace (applyPoll s (.ok st)) sts := rfl

theorem pollTrace_active (sts : List RunStatus) :
    ∀ s : SimState, s.runId.isSome = true → isRunning s = true →
      (∀ st ∈ sts, st.status = StatusKind.queued ∨
        st.status = StatusKind.running) →
      (pollTrace s sts).runId = s.runId ∧
        isRunning (pollTrace s sts) = true := by
  induction sts with
  | nil => exact fun s _ hrun _ => ⟨rfl, hrun⟩
  | cons st sts ih =>
    intro s hid hrun hall
    have hen : pollEnabled s = true := by
      simp [pollEnabled, hid, hrun]
    rw [pollTrace_cons, applyPoll_of_enabled s st hen]
    have hrun2 : isRunning { s with status := some st } = true := by
      rcases hall st (List.mem_cons_self st sts) with hq | hr
      · simp [isRunning, hq]
      · simp [isRunning, hr]
    exact (ih { s with status := some st } hid hrun2
      (fun st2 h2 => hall st2 (List.mem_cons_of_mem st h2)))

theorem foldl_nonsubmit_not_running (evs : List Event) :
    ∀ s : SimState, isRunning s = false → (∀ e ∈ evs, e.isSubmit = false) →
      isRunning (List.foldl step s evs) = false := by
  induction evs with
  | nil => exact fun s h _ => h
  | cons e evs ih =>
    intro s h hall
    rw [List.foldl_cons]
    exact ih _
      (step_nonsubmit_not_running s e (hall e (List.mem_cons_self e evs)) h)
      (fun e2 h2 => hall e2 (List.mem_cons_of_mem e h2))

theorem find?_first {α : Type} (p : α → Bool) :
    ∀ (l₁ : List α) (r : α) (l₂ : List α), p r = true →
      (∀ x ∈ l₁, p x = false) → (l₁ ++ r :: l₂).find? p = some r := by
  intro l₁
  induction l₁ with
  | nil =>
    intro r l₂ hr _
    simpa using List.find?_cons_of_pos l₂ hr
  | cons x xs ih =>
    intro r l₂ hr hall
    have hx : ¬ p x = true := by
      simp [hall x (List.mem_cons_self x xs)]
    rw [List.cons_append, List.find?_cons_of_neg _ hx]
    exact ih r l₂ hr (fun y hy => hall y (List.mem_cons_of_mem x hy))

/-! ## Claims -/

/-- C1: for every input row set and requested metric, the pivot produces a
matrix with one row per distinct batt value and one column per distinct pv
value, both axis sequences sorted ascending with duplicates collapsed; the
cell at row i, column j holds the metric field of the first row matching
the j-th smallest distinct pv and the i-th smallest distinct batt, with 0
when the field is absent on that row (folded into Option.getD) or when no
row matches; an empty row set yields empty axes and an empty matrix. -/
theorem claim_C1_pivot (rows : List SweepRow) (f : SweepRow → Option ℚ) :
    (rows = [] → pvSizes rows = [] ∧ battSizes rows = [] ∧
      pivotMatrix rows (fun r => (f r).getD 0) = []) ∧
    (pvSizes rows).Sorted (· < ·) ∧
    (battSizes rows).Sorted (· < ·) ∧
    (∀ v, v ∈ pvSizes rows ↔ v ∈ rows.map SweepRow.pv_kw) ∧
    (∀ v, v ∈ battSizes rows ↔ v ∈ rows.map SweepRow.batt_kwh) ∧
    (pivotMatrix rows (fun r => (f r).getD 0)).length =
      (battSizes rows).length ∧
    (∀ row ∈ pivotMatrix rows (fun r => (f r).getD 0),
      row.length = (pvSizes rows).length) ∧
    (∀ i j, i < (battSizes rows).length → j < (pvSizes rows).length →
      ((∀ r ∈ rows,
          rowMatches ((pvSizes rows)[j]!) ((battSizes rows)[i]!) r = false) →
        ((pivotMatrix rows (fun r => (f r).getD 0))[i]!)[j]! = 0) ∧
      (∀ l₁ r l₂, rows = l₁ ++ r :: l₂ →
        rowMatches ((pvSizes rows)[j]!) ((battSizes rows)[i]!) r = true →
        (∀ r2 ∈ l₁,
          rowMatches ((pvSizes rows)[j]!) ((battSizes rows)[i]!) r2 = false) →
        ((pivotMatrix rows (fun r => (f r).getD 0))[i]!)[j]! =
          (f r).getD 0)) := by
  refine ⟨?_, pvSizes_sorted rows, battSizes_sorted rows, pvSizes_mem rows,
    battSizes_mem rows, pivotMatrix_length rows _,
    pivotMatrix_row_length rows _, ?_⟩
  · rintro rfl
    exact ⟨rfl, rfl, rfl⟩
  · intro i j hi hj
    constructor
    · intro hnone
      rw [pivotMatrix_cell rows _ i j hi hj]
      have hfind : findRow rows ((pvSizes rows)[j]!) ((battSizes rows)[i]!)
          = none := by
        rw [findRow, List.find?_eq_none]
        intro x hx
        simp [hnone x hx]
      rw [hfind]
    · intro l₁ r l₂ hrows hr hl₁
      rw [pivotMatrix_cell rows _ i j hi hj]
      generalize hpv : (pvSizes rows)[j]! = pv at hr hl₁ ⊢
      generalize hbt : (battSizes rows)[i]! = batt at hr hl₁ ⊢
      have hfind : findRow rows pv batt = some r := by
        rw [findRow, hrows]
        exact find?_first _ l₁ r l₂ hr hl₁
      rw [hfind]

/-- Witness for C1 on the example rows of the specification: the cell for
the smallest pv and batt values is the metric of the first matching row,
and the cell of the absent combination pv two, batt four is zero. -/
theorem claim_C1_pivot_witness :
    ((pivotMatrix rows3 (fun r => (SweepRow.total_flops r).getD 0))[0]!)[0]!
      = (SweepRow.total_flops row12).getD 0 ∧
    ((pivotMatrix rows3 (fun r => (SweepRow.total_flops r).getD 0))[1]!)[1]!
      = 0 := by
  have h := claim_C1_pivot rows3 SweepRow.total_flops
  constructor
  · exact (h.2.2.2.2.2.2.2 0 0 (by decide) (by decide)).2 [] row12
      [row22, row14] (by decide) (by decide) (by decide)
  · exact (h.2.2.2.2.2.2.2 1 1 (by decide) (by decide)).1 (by decide)

/-- C2: at every state the derived isRunning boolean is true exactly when a
status is stored whose kind is queued or running; consequently, starting
from any state holding a handle and an active status, a sequence of poll
responses whose intermediate elements are non-terminal and whose last
element is done keeps isRunning true at every intermediate state, makes it
false once the terminal status is stored, and it stays false under any
further sequence of non-submit events. -/
theorem claim_C2_isRunning :
    (∀ s : SimState, isRunning s = true ↔ ∃ st, s.status = some st ∧
      (st.status = StatusKind.queued ∨ st.status = StatusKind.running)) ∧
    (∀ (s : SimState) (sts : List RunStatus) (stLast : RunStatus),
      s.runId.isSome = true → isRunning s = true →
      (∀ st ∈ sts, st.status = StatusKind.queued ∨
        st.status = StatusKind.running) →
      stLast.status = StatusKind.done →
      (∀ k, k ≤ sts.length → isRunning (pollTrace s (sts.take k)) = true) ∧
      isRunning (pollTrace s (sts ++ [stLast])) = false ∧
      (∀ evs : List Event, (∀ e ∈ evs, e.isSubmit = false) →
        isRunning (List.foldl step (pollTrace s (sts ++ [stLast])) evs)
          = false)) := by
  refine ⟨isRunning_iff, ?_⟩
  intro s sts stLast hid hrun hall hlast
  have hmid := pollTrace_active sts s hid hrun hall
  have hfin : isRunning (pollTrace s (sts ++ [stLast])) = false := by
    have happ : pollTrace s (sts ++ [stLast])
        = applyPoll (pollTrace s sts) (.ok stLast) := by
      unfold pollTrace
      rw [List.foldl_append]
      rfl
    have hen : pollEnabled (pollTrace s sts) = true := by
      unfold pollEnabled
      rw [hmid.1, hmid.2, hid]
      rfl
    rw [happ, applyPoll_of_enabled _ stLast hen]
    simp [isRunning, hlast]
  refine ⟨?_, hfin, ?_⟩
  · intro k hk
    exact (pollTrace_active (sts.take k) s hid hrun
      (fun st hst => hall st (List.take_subset k sts hst))).2
  · intro evs hevs
    exact foldl_nonsubmit_not_running evs _ hfin hevs

/-- Witness for C2: after a successful submission, one running poll keeps
isRunning true, the final done poll makes it false, and a further reset
event keeps it false. -/
theorem claim_C2_isRunning_witness :
    isRunning (pollTrace sAfterSubmit ([stRunning].take 1)) = true ∧
    isRunning (pollTrace sAfterSubmit ([stRunning] ++ [stDone])) = false ∧
    isRunning (List.foldl step (pollTrace sAfterSubmit ([stRunning] ++
      [stDone])) [Event.resetEvent]) = false := by
  have h := claim_C2_isRunning.2 sAfterSubmit [stRunning] stDone rfl rfl
    (by decide) rfl
  exact ⟨h.1 1 (by decide), h.2.1, h.2.2 [Event.resetEvent] (by decide)⟩

/-- C3: both submit actions set the cached timeseries and sweep artifacts
to none immediately, on the intermediate state that precedes the create-run
call, so the caches are already clear before any outcome and remain clear
in the resulting state whatever the outcome is. -/
theorem claim_C3_submit_clears (s : SimState) (c : FullConfig)
    (o : RunOptions) :
    (submitClear s).timeseries = none ∧ (submitClear s).sweep = none ∧
    (∀ res, runSingle s c o res = applyCreateRun (submitClear s) res ∧
      runSweep s c o res = applyCreateRun (submitClear s) res) ∧
    (∀ res, (runSingle s c o res).1.timeseries = none ∧
      (runSingle s c o res).1.sweep = none ∧
      (runSweep s c o res).1.timeseries = none ∧
      (runSweep s c o res).1.sweep = none) := by
  refine ⟨rfl, rfl, fun res => ⟨rfl, rfl⟩, fun res => ?_⟩
  cases res <;>
    simp [runSingle, runSweep, submitRun, applyCreateRun, submitClear]

/-- C4 counterexample: on a finished run, a sweep fetch failure that is not
a not-found result does not become the run error; the error cell stays
none instead of holding the failure message, refuting the claim at this
concrete input. -/
theorem claim_C4_counterexample :
    (applyFetchSweep sDone (SweepFetchResult.failed "boom")).error
      ≠ some "boom" := by
  have h : applyFetchSweep sDone (SweepFetchResult.failed "boom") = sDone :=
    rfl
  rw [h]
  simp [sDone]

/-- C4 (amended): a sweep fetch failure other than not found is NOT
surfaced as the run error; the query result is read only through its data
field, so such a failure leaves the whole orchestrator state, including the
error cell, unchanged. -/
theorem claim_C4_sweep_failure_not_surfaced (s : SimState) (msg : String) :
    applyFetchSweep s (SweepFetchResult.failed msg) = s ∧
    (applyFetchSweep s (SweepFetchResult.failed msg)).error = s.error := by
  have h : applyFetchSweep s (SweepFetchResult.failed msg) = s := by
    unfold applyFetchSweep
    by_cases he : artifactFetchEnabled s = true
    · simp [he]
    · simp only [Bool.not_eq_true] at he
      simp [he]
  exact ⟨h, by rw [h]⟩

/-- C5 counterexample: when the create-run call fails, runSingle rejects;
the promise the caller awaits resolves to an error, not to ok, so the
failure does propagate across the orchestrator boundary. -/
theorem claim_C5_counterexample :
    (runSingle initialState defaultConfig defaultRunOptions
      (CreateRunResult.failure "boom")).2 = Except.error "boom" ∧
    (runSingle initialState defaultConfig defaultRunOptions
      (CreateRunResult.failure "boom")).2 ≠ Except.ok () := by
  refine ⟨rfl, ?_⟩
  intro h
  rw [show (runSingle initialState defaultConfig defaultRunOptions
      (CreateRunResult.failure "boom")).2 = Except.error "boom" from rfl] at h
  exact Except.noConfusion h

/-- C5 (amended): a create-run failure is captured as the orchestrator
error string, but runSingle and runSweep await the mutation through
mutateAsync without a catch, so their returned promise also rejects with
the same message; on create-run success they resolve normally. -/
theorem claim_C5_submit_rejects (s : SimState) (c : FullConfig)
    (o : RunOptions) :
    (∀ msg, (runSingle s c o (.failure msg)).1.error = some msg ∧
      (runSingle s c o (.failure msg)).2 = Except.error msg ∧
      (runSweep s c o (.failure msg)).1.error = some msg ∧
      (runSweep s c o (.failure msg)).2 = Except.error msg) ∧
    (∀ rid, (runSingle s c o (.success rid)).2 = Except.ok () ∧
      (runSweep s c o (.success rid)).2 = Except.ok ()) :=
  ⟨fun _ => ⟨rfl, rfl, rfl, rfl⟩, fun _ => ⟨rfl, rfl⟩⟩

/-- C6: reset from any state returns the orchestrator to the initial idle
state: handle, status, cached timeseries, cached sweep and error message
all become none. -/
theorem claim_C6_reset (s : SimState) :
    reset s = initialState ∧ (reset s).runId = none ∧
    (reset s).status = none ∧ (reset s).timeseries = none ∧
    (reset s).sweep = none ∧ (reset s).error = none :=
  ⟨rfl, rfl, rfl, rfl, rfl, rfl⟩

/-- C7: the poll-enabled condition holds exactly when a handle exists and
the stored status kind is queued or running; it is false with no handle or
a terminal status, a disabled poll leaves the state untouched, an enabled
successful poll replaces the stored status wholesale and changes nothing
else, and the cadence constant is 1000 milliseconds. -/
theorem claim_C7_poll_gating (s : SimState) :
    (pollEnabled s = true ↔ s.runId.isSome = true ∧ ∃ st,
      s.status = some st ∧ (st.status = StatusKind.queued ∨
        st.status = StatusKind.running)) ∧
    (s.runId = none → pollEnabled s = false) ∧
    (∀ st, s.status = some st →
      st.status = StatusKind.done ∨ st.status = StatusKind.error →
      pollEnabled s = false) ∧
    (pollEnabled s = false → ∀ res, applyPoll s res = s) ∧
    (pollEnabled s = true → ∀ st, applyPoll s (.ok st) =
      { s with status := some st }) ∧
    pollIntervalMs = 1000 := by
  refine ⟨?_, ?_, ?_, fun h res => applyPoll_of_disabled s res h, ?_, rfl⟩
  · unfold pollEnabled
    rw [Bool.and_eq_true, isRunning_iff]
  · intro h
    unfold pollEnabled
    rw [h]
    rfl
  · intro st hst hterm
    unfold pollEnabled
    have : isRunning s = false := by
      unfold isRunning
      rw [hst]
      rcases hterm with h | h <;> simp [h]
    rw [this, Bool.and_false]
  · intro h st
    exact applyPoll_of_enabled s st h

/-- Witness for C7: on a finished run the poll is disabled and a tick
leaves the state unchanged; right after submission the poll is enabled and
a successful tick replaces the stored status wholesale. -/
theorem claim_C7_poll_gating_witness :
    applyPoll sDone (Except.ok stQueued) = sDone ∧
    applyPoll sAfterSubmit (Except.ok stDone)
      = { sAfterSubmit with status := some stDone } := by
  refine ⟨(claim_C7_poll_gating sDone).2.2.2.1 rfl (Except.ok stQueued), ?_⟩
  exact (claim_C7_poll_gating sAfterSubmit).2.2.2.2.1 rfl stDone

/-- C8 counterexample: on a finished run, the not-found outcome and a
failing sweep fetch produce the same resulting state, so a consumer
observing the orchestrator state cannot distinguish the two outcomes,
refuting the distinguishability part of the claim at this concrete
input. -/
theorem claim_C8_counterexample :
    applyFetchSweep sDone (SweepFetchResult.failed "boom")
      = applyFetchSweep sDone SweepFetchResult.notFound ∧
    (applyFetchSweep sDone SweepFetchResult.notFound).error = none :=
  ⟨rfl, rfl⟩

/-- C8 (amended): a not-found sweep fetch leaves the cached sweep absent
and does not set the error cell (the state is unchanged); however the
consumer cannot distinguish it from a fetch failure, because any failure
leaves the state unchanged in exactly the same way. -/
theorem claim_C8_notFound (s : SimState) (msg : String) :
    applyFetchSweep s SweepFetchResult.notFound = s ∧
    (applyFetchSweep s SweepFetchResult.notFound).sweep = s.sweep ∧
    (applyFetchSweep s SweepFetchResult.notFound).error = s.error ∧
    applyFetchSweep s (SweepFetchResult.failed msg)
      = applyFetchSweep s SweepFetchResult.notFound := by
  have h : applyFetchSweep s SweepFetchResult.notFound = s := by
    unfold applyFetchSweep
    by_cases he : artifactFetchEnabled s = true
    · simp [he]
    · simp only [Bool.not_eq_true] at he
      simp [he]
  have h2 : applyFetchSweep s (SweepFetchResult.failed msg) = s := by
    unfold applyFetchSweep
    by_cases he : artifactFetchEnabled s = true
    · simp [he]
    · simp only [Bool.not_eq_true] at he
      simp [he]
  exact ⟨h, by rw [h], by rw [h], by rw [h, h2]⟩

/-- C9: on a fully dense, uniformly gridded row set (at most one row per
coordinate pair, and a row for every pair of occurring coordinate values),
reading back the pivot cell at the row index of a batt value and the
column index of a pv value gives the metric value of the original row with
those coordinates, for every grid point. -/
theorem claim_C9_roundtrip (rows : List SweepRow) (val : SweepRow → ℚ)
    (huniq : ∀ r1 ∈ rows, ∀ r2 ∈ rows, r1.pv_kw = r2.pv_kw →
      r1.batt_kwh = r2.batt_kwh → r1 = r2)
    (_hdense : ∀ x ∈ rows.map SweepRow.pv_kw,
      ∀ y ∈ rows.map SweepRow.batt_kwh,
        ∃ r ∈ rows, r.pv_kw = x ∧ r.batt_kwh = y) :
    ∀ i j, i < (battSizes rows).length → j < (pvSizes rows).length →
      ∀ r ∈ rows, r.pv_kw = (pvSizes rows)[j]! →
        r.batt_kwh = (battSizes rows)[i]! →
        ((pivotMatrix rows val)[i]!)[j]! = val r := by
  intro i j hi hj r hr hpv hbt
  rw [pivotMatrix_cell rows val i j hi hj]
  have hp : rowMatches ((pvSizes rows)[j]!) ((battSizes rows)[i]!) r
      = true := by
    unfold rowMatches
    rw [Bool.and_eq_true, decide_eq_true_eq, decide_eq_true_eq]
    exact ⟨hpv, hbt⟩
  have hne : findRow rows ((pvSizes rows)[j]!) ((battSizes rows)[i]!)
      ≠ none := by
    unfold findRow
    rw [Ne, List.find?_eq_none]
    intro hnone
    exact (hnone r hr) hp
  obtain ⟨r2, hr2⟩ : ∃ r2, findRow rows ((pvSizes rows)[j]!)
      ((battSizes rows)[i]!) = some r2 := by
    cases hfind : findRow rows ((pvSizes rows)[j]!) ((battSizes rows)[i]!)
      with
    | none => exact absurd hfind hne
    | some r2 => exact ⟨r2, rfl⟩
  have hmem := List.mem_of_find?_eq_some hr2
  have hp2 := List.find?_some hr2
  rw [rowMatches, Bool.and_eq_true, decide_eq_true_eq, decide_eq_true_eq]
    at hp2
  have : r2 = r := huniq r2 hmem r hr (hp2.1.trans hpv.symm)
    (hp2.2.trans hbt.symm)
  rw [hr2, this]

/-- Witness for C9 on the dense two by two grid: the cell in the second
row (batt four) and first column (pv one) reads back the metric of the row
with those coordinates. -/
theorem claim_C9_roundtrip_witness :
    ((pivotMatrix rows4 flopsValue)[1]!)[0]! = flopsValue row14 := by
  exact claim_C9_roundtrip rows4 flopsValue (by decide) (by decide) 1 0
    (by decide) (by decide) row14 (by decide) (by decide) (by decide)

/-- C10: when the create-run call fails during runSingle or runSweep, only
the error cell is updated (to the failure message) while the artifact
caches were already cleared by the submit itself; the handle and the
stored status keep their previous values, so a failed submission does not
return the orchestrator to idle; and a submit by itself never clears a
pre-existing error message, which is cleared only by a create-run
success. -/
theorem claim_C10_failure_frame (s : SimState) (c : FullConfig)
    (o : RunOptions) (msg : String) :
    (runSingle s c o (.failure msg)).1 =
      { s with timeseries := none, sweep := none, error := some msg } ∧
    (runSingle s c o (.failure msg)).1.runId = s.runId ∧
    (runSingle s c o (.failure msg)).1.status = s.status ∧
    (runSweep s c o (.failure msg)).1 =
      { s with timeseries := none, sweep := none, error := some msg } ∧
    (submitClear s).error = s.error ∧
    (∀ rid, (runSingle s c o (.success rid)).1.error = none ∧
      (runSweep s c o (.success rid)).1.error = none) :=
  ⟨rfl, rfl, rfl, rfl, rfl, fun _ => ⟨rfl, rfl⟩⟩

end Sun2Flops
